import Mathlib

/-!
Verification of the control-binding and routing core of pulsekontrol.

The Go source is embedded shallowly:
* Go structs become Lean structures with the same field names.
* Go maps (`map[string]SliderConfig`) become association lists
  `List (String × SliderConfig)`; the list order models the map's
  iteration order, which Go leaves unspecified and randomizes.
  `mapGet` / `mapSet` mirror Go map lookup and in-place insertion
  (a fresh key is modelled as appended at the end).
* Go `int` becomes `Int`; MIDI byte values become `Nat`.
* Mutation of the `ConfigManager` state becomes explicit state passing:
  each store operation returns the new `Config` together with the list
  of notifications it published and whether it scheduled a debounced
  save (`StoreResult`).
* Logging is dropped except where a claim is about it: the
  "Config migration needed" log line of `ProcessVolumeAction` is kept
  as an event in the produced trace.
-/

namespace PulseKontrol

/-- Mirrors Go `strings.TrimPrefix`: drops `pre` from the front of `s`
when `s` starts with it, else returns `s` unchanged. -/
def trimPrefixStr (s pre : String) : String :=
  if pre.data.isPrefixOf s.data then ⟨s.data.drop pre.data.length⟩ else s

/-- `src/configuration/types.go`: `PulseAudioTargetType`. -/
inductive PulseAudioTargetType
  | PlaybackStream
  | RecordStream
  | OutputDevice
  | InputDevice
deriving DecidableEq

/-- `src/configuration/types.go`: `Source` — an audio source assigned to a
control.  `binaryName` is empty on legacy references. -/
structure Source where
  type : PulseAudioTargetType
  name : String
  binaryName : String
deriving DecidableEq

/-- `src/configuration/types.go`: `SliderConfig` (and the structurally
identical `KnobConfig`). -/
structure SliderConfig where
  path : String
  value : Int
  sources : List Source
deriving DecidableEq

/-- `KnobConfig` has exactly the same fields as `SliderConfig` in the Go
source; one Lean structure stands for both. -/
abbrev KnobConfig := SliderConfig

/-- `src/configuration/types.go`: `DeviceConfig`. -/
structure DeviceConfig where
  name : String
  inPort : String
  outPort : String
deriving DecidableEq

/-- `src/configuration/types.go`: `Controls`.  The association lists model
the two Go maps together with one of their possible iteration orders. -/
structure Controls where
  sliders : List (String × SliderConfig)
  knobs : List (String × KnobConfig)
deriving DecidableEq

/-- `src/configuration/types.go`: `Config`, the root aggregate. -/
structure Config where
  device : DeviceConfig
  controls : Controls
deriving DecidableEq

/-- Go map lookup `m[k]` on the association-list model. -/
def mapGet {α : Type} (l : List (String × α)) (k : String) : Option α :=
  (l.find? (fun p => p.1 = k)).map (fun p => p.2)

/-- Go map insertion `m[k] = v` on the association-list model: an existing
key keeps its position, a fresh key is appended. -/
def mapSet {α : Type} (l : List (String × α)) (k : String) (v : α) :
    List (String × α) :=
  match l with
  | [] => [(k, v)]
  | (k', v') :: t => if k' = k then (k, v) :: t else (k', v') :: mapSet t k v

/-- The notifications `ConfigManager.Notify` publishes, with the payload
fields the Go code actually attaches (`configmanager.go`). -/
inductive Notification
  | controlValueUpdated (type id : String) (value : Int)
  | sourceAssigned (controlType controlId : String) (source : Source)
      (initialValue : Int)
  | sourceUnassigned (controlType controlId : String)
      (sourceType : PulseAudioTargetType) (sourceName : String)
deriving DecidableEq

/-- Result of one `ConfigManager` operation: the new configuration, the
notifications published, and whether `SaveWithDebounce` was called. -/
structure StoreResult where
  config : Config
  notifications : List Notification
  saveScheduled : Bool
deriving DecidableEq

/-- Replace the sliders map of a configuration (Go: assignment to
`cm.config.Controls.Sliders[...]`). -/
def setSliders (config : Config) (l : List (String × SliderConfig)) : Config :=
  { config with controls := { config.controls with sliders := l } }

/-- Replace the knobs map of a configuration (Go: assignment to
`cm.config.Controls.Knobs[...]`). -/
def setKnobs (config : Config) (l : List (String × KnobConfig)) : Config :=
  { config with controls := { config.controls with knobs := l } }

/-- `configmanager.go` `UpdateControlValue`: writes the value verbatim to
an existing binding, or creates the binding with a path derived from the
control id; then notifies `control.value.updated` and schedules a save.
There is no clamping in the source. -/
def UpdateControlValue (controlType controlId : String) (value : Int)
    (config : Config) : StoreResult :=
  let cfg : Config :=
    match controlType with
    | "slider" =>
      match mapGet config.controls.sliders controlId with
      | some slider =>
        setSliders config
          (mapSet config.controls.sliders controlId { slider with value := value })
      | none =>
        let groupNumber := trimPrefixStr controlId "slider"
        let newSlider : SliderConfig :=
          { path := "Group" ++ groupNumber ++ "/Slider",
            value := value,
            sources := [] }
        setSliders config (mapSet config.controls.sliders controlId newSlider)
    | "knob" =>
      match mapGet config.controls.knobs controlId with
      | some knob =>
        setKnobs config
          (mapSet config.controls.knobs controlId { knob with value := value })
      | none =>
        let groupNumber := trimPrefixStr controlId "knob"
        let newKnob : KnobConfig :=
          { path := "Group" ++ groupNumber ++ "/Knob",
            value := value,
            sources := [] }
        setKnobs config (mapSet config.controls.knobs controlId newKnob)
    | _ => config
  { config := cfg,
    notifications := [.controlValueUpdated controlType controlId value],
    saveScheduled := true }

/-- Mirrors the source-equality test used by `AssignSource` and
`UnassignSource`: all three of type, name and binary name must match. -/
def sameSource (a b : Source) : Bool :=
  a.type = b.type && a.name = b.name && a.binaryName = b.binaryName

theorem sameSource_iff (a b : Source) : sameSource a b = true ↔ a = b := by
  cases a; cases b
  simp [sameSource, and_assoc]

/-- `configmanager.go` `AssignSource`: appends the source to an existing
binding unless an equal source is already present (in which case the Go
code returns early, publishing nothing and scheduling no save); then
notifies `source.assigned` with the binding's current value and schedules
a save.  When the control id is unknown nothing is appended but the
notification (with `initialValue` 0) and the save still happen. -/
def AssignSource (controlType controlId : String) (source : Source)
    (config : Config) : StoreResult :=
  match controlType with
  | "slider" =>
    match mapGet config.controls.sliders controlId with
    | some slider =>
      if slider.sources.any (fun existingSource => sameSource existingSource source) then
        { config := config, notifications := [], saveScheduled := false }
      else
        let slider' := { slider with sources := slider.sources ++ [source] }
        { config :=
            setSliders config (mapSet config.controls.sliders controlId slider'),
          notifications :=
            [.sourceAssigned controlType controlId source slider'.value],
          saveScheduled := true }
    | none =>
      { config := config,
        notifications := [.sourceAssigned controlType controlId source 0],
        saveScheduled := true }
  | "knob" =>
    match mapGet config.controls.knobs controlId with
    | some knob =>
      if knob.sources.any (fun existingSource => sameSource existingSource source) then
        { config := config, notifications := [], saveScheduled := false }
      else
        let knob' := { knob with sources := knob.sources ++ [source] }
        { config :=
            setKnobs config (mapSet config.controls.knobs controlId knob'),
          notifications :=
            [.sourceAssigned controlType controlId source knob'.value],
          saveScheduled := true }
    | none =>
      { config := config,
        notifications := [.sourceAssigned controlType controlId source 0],
        saveScheduled := true }
  | _ =>
    { config := config,
      notifications := [.sourceAssigned controlType controlId source 0],
      saveScheduled := true }

/-- `configmanager.go` `UnassignSource`: filters every matching source out
of the binding, then (whether or not anything was removed) notifies
`source.unassigned` — whose payload carries only the type and name — and
schedules a save. -/
def UnassignSource (controlType controlId : String) (source : Source)
    (config : Config) : StoreResult :=
  let cfg : Config :=
    match controlType with
    | "slider" =>
      match mapGet config.controls.sliders controlId with
      | some slider =>
        let updatedSources :=
          slider.sources.filter
            (fun existingSource => !(sameSource existingSource source))
        setSliders config
          (mapSet config.controls.sliders controlId { slider with sources := updatedSources })
      | none => config
    | "knob" =>
      match mapGet config.controls.knobs controlId with
      | some knob =>
        let updatedSources :=
          knob.sources.filter
            (fun existingSource => !(sameSource existingSource source))
        setKnobs config
          (mapSet config.controls.knobs controlId { knob with sources := updatedSources })
      | none => config
    | _ => config
  { config := cfg,
    notifications :=
      [.sourceUnassigned controlType controlId source.type source.name],
    saveScheduled := true }

/-- `configmanager.go` `MigrateSourceBinaryName`: unassign the legacy
(binary-name-less) source, then assign the disambiguated one.  Effects of
the two store operations are concatenated. -/
def MigrateSourceBinaryName (controlType controlId : String)
    (sourceType : PulseAudioTargetType) (sourceName binaryName : String)
    (config : Config) : StoreResult :=
  let r1 := UnassignSource controlType controlId
    { type := sourceType, name := sourceName, binaryName := "" } config
  let r2 := AssignSource controlType controlId
    { type := sourceType, name := sourceName, binaryName := binaryName }
    r1.config
  { config := r2.config,
    notifications := r1.notifications ++ r2.notifications,
    saveScheduled := r1.saveScheduled || r2.saveScheduled }


/-- Reading a control's stored `currentValue` from a configuration
snapshot, as the spec's `snapshot` read does. -/
def controlValue (controlType controlId : String) (config : Config) :
    Option Int :=
  match controlType with
  | "slider" => (mapGet config.controls.sliders controlId).map (fun s => s.value)
  | "knob" => (mapGet config.controls.knobs controlId).map (fun s => s.value)
  | _ => none

theorem mapGet_cons_self {α : Type} (k : String) (v : α)
    (t : List (String × α)) : mapGet ((k, v) :: t) k = some v := by
  simp [mapGet, List.find?_cons]

theorem mapGet_cons_ne {α : Type} (k k' : String) (v' : α)
    (t : List (String × α)) (h : k' ≠ k) :
    mapGet ((k', v') :: t) k = mapGet t k := by
  simp [mapGet, List.find?_cons, h]

theorem mapGet_mapSet_self {α : Type} (l : List (String × α)) (k : String)
    (v : α) : mapGet (mapSet l k v) k = some v := by
  induction l with
  | nil => simp [mapGet, mapSet, List.find?_cons]
  | cons p t ih =>
    obtain ⟨k', v'⟩ := p
    by_cases hk : k' = k
    · subst hk
      simp [mapSet, mapGet_cons_self]
    · rw [mapSet, if_neg hk, mapGet_cons_ne _ _ _ _ hk]
      exact ih

theorem mapGet_mapSet_ne {α : Type} (l : List (String × α)) (k k₂ : String)
    (v : α) (h : k₂ ≠ k) : mapGet (mapSet l k v) k₂ = mapGet l k₂ := by
  have h' : k ≠ k₂ := fun he => h he.symm
  induction l with
  | nil => simp [mapGet, mapSet, List.find?_cons, h']
  | cons p t ih =>
    obtain ⟨k', v'⟩ := p
    by_cases hk : k' = k
    · subst hk
      rw [mapSet, if_pos rfl, mapGet_cons_ne _ _ _ _ h',
        mapGet_cons_ne _ _ _ _ h']
    · rw [mapSet, if_neg hk]
      by_cases hk2 : k' = k₂
      · subst hk2
        rw [mapGet_cons_self, mapGet_cons_self]
      · rw [mapGet_cons_ne _ _ _ _ hk2, mapGet_cons_ne _ _ _ _ hk2]
        exact ih

/-- Fixture device used by concrete test configurations. -/
def devFix : DeviceConfig :=
  { name := "KORG nanoKONTROL2", inPort := "in", outPort := "out" }

/-- A configuration holding a single slider binding `slider3`. -/
def cfgOneSlider : Config :=
  { device := devFix,
    controls :=
      { sliders := [("slider3", { path := "Group3/Slider", value := 50, sources := [] })],
        knobs := [] } }

/-- C1 counterexample: the claim says an input of 150 results in a stored
`currentValue` of 100, but `UpdateControlValue` performs no clamping: the
stored value is 150. -/
theorem C1_clamping_counterexample :
    controlValue "slider" "slider3"
      (UpdateControlValue "slider" "slider3" 150 cfgOneSlider).config =
      some 150 ∧ (150 : Int) ≠ 100 := by
  constructor
  · rfl
  · decide

/-- C1 (amended): for every control kind, bound control id and integer
value, `UpdateControlValue` followed by a snapshot read yields the value
stored verbatim — unchanged for inputs already in [0,100], but also
unchanged (unclamped) for out-of-range inputs such as 150 or -5. -/
theorem C1_update_stores_verbatim (controlType controlId : String)
    (b : SliderConfig) (v : Int) (config : Config)
    (h : (controlType = "slider" ∧
            mapGet config.controls.sliders controlId = some b) ∨
         (controlType = "knob" ∧
            mapGet config.controls.knobs controlId = some b)) :
    controlValue controlType controlId
      ((UpdateControlValue controlType controlId v config).config) =
      some v := by
  rcases h with ⟨hct, hget⟩ | ⟨hct, hget⟩ <;> subst hct <;>
    simp [UpdateControlValue, controlValue, hget, setSliders, setKnobs,
      mapGet_mapSet_self]

/-- C1 witness: instantiates the amended theorem at the concrete binding
`slider3` with out-of-range input 150. -/
theorem C1_update_stores_verbatim_witness :
    (("slider" = "slider" ∧
        mapGet cfgOneSlider.controls.sliders "slider3" =
          some { path := "Group3/Slider", value := 50, sources := [] }) ∨
      ("slider" = "knob" ∧
        mapGet cfgOneSlider.controls.knobs "slider3" =
          some { path := "Group3/Slider", value := 50, sources := [] })) ∧
    controlValue "slider" "slider3"
      ((UpdateControlValue "slider" "slider3" 150 cfgOneSlider).config) =
      some 150 :=
  ⟨Or.inl ⟨rfl, by decide⟩,
    C1_update_stores_verbatim "slider" "slider3"
      { path := "Group3/Slider", value := 50, sources := [] } 150 cfgOneSlider
      (Or.inl ⟨rfl, by decide⟩)⟩


/-- Reading a whole control binding from a configuration snapshot. -/
def controlBinding (controlType controlId : String) (config : Config) :
    Option SliderConfig :=
  match controlType with
  | "slider" => mapGet config.controls.sliders controlId
  | "knob" => mapGet config.controls.knobs controlId
  | _ => none

theorem sameSource_eq_decide (a b : Source) :
    sameSource a b = decide (a = b) := by
  by_cases h : a = b
  · subst h
    simp [sameSource]
  · rw [decide_eq_false h, Bool.eq_false_iff]
    exact fun hc => h ((sameSource_iff a b).1 hc)

theorem any_sameSource_iff (l : List Source) (s : Source) :
    (l.any fun e => sameSource e s) = true ↔ s ∈ l := by
  simp [List.any_eq_true, sameSource_iff]

/-- Helper, shared by several claims: `AssignSource` on an already-present
source is a complete no-op (early `return` in the Go code). -/
theorem assign_duplicate_noop (controlType controlId : String) (src : Source)
    (b : SliderConfig) (config : Config)
    (hb : controlBinding controlType controlId config = some b)
    (hmem : src ∈ b.sources) :
    AssignSource controlType controlId src config =
      { config := config, notifications := [], saveScheduled := false } := by
  have hany : (b.sources.any fun e => sameSource e src) = true :=
    (any_sameSource_iff b.sources src).2 hmem
  by_cases hs : controlType = "slider"
  · subst hs
    simp only [controlBinding] at hb
    simp [AssignSource, hb, hany]
  · by_cases hk : controlType = "knob"
    · subst hk
      simp only [controlBinding] at hb
      simp [AssignSource, hb, hany]
    · simp only [controlBinding, hs, hk] at hb
      simp at hb

/-- Helper: appending a fresh source keeps the no-duplicates invariant. -/
theorem nodup_append_fresh (l : List Source) (s : Source)
    (hnd : l.Nodup) (hmem : s ∉ l) : (l ++ [s]).Nodup := by
  simp [List.nodup_append, hnd, hmem]

/-- C7: `AssignSource` is idempotent — assigning a source triple that is
already present leaves the configuration (hence the target list) entirely
unchanged, publishes nothing and schedules no save; and it preserves the
invariant that the target list holds no two equal triples. -/
theorem C7_assign_idempotent (controlType controlId : String) (src : Source)
    (b : SliderConfig) (config : Config)
    (hb : controlBinding controlType controlId config = some b) :
    (src ∈ b.sources →
      AssignSource controlType controlId src config =
        { config := config, notifications := [], saveScheduled := false }) ∧
    (b.sources.Nodup →
      ∃ b', controlBinding controlType controlId
          ((AssignSource controlType controlId src config).config) = some b' ∧
        b'.sources.Nodup) := by
  constructor
  · exact fun hmem => assign_duplicate_noop controlType controlId src b config hb hmem
  · intro hnd
    by_cases hmem : src ∈ b.sources
    · refine ⟨b, ?_, hnd⟩
      rw [assign_duplicate_noop controlType controlId src b config hb hmem]
      exact hb
    · have hany : ¬((b.sources.any fun e => sameSource e src) = true) :=
        fun hc => hmem ((any_sameSource_iff b.sources src).1 hc)
      by_cases hs : controlType = "slider"
      · subst hs
        simp only [controlBinding] at hb ⊢
        refine ⟨{ b with sources := b.sources ++ [src] }, ?_, ?_⟩
        · simp [AssignSource, hb, hany, setSliders, mapGet_mapSet_self]
        · exact nodup_append_fresh b.sources src hnd hmem
      · by_cases hk : controlType = "knob"
        · subst hk
          simp only [controlBinding] at hb ⊢
          refine ⟨{ b with sources := b.sources ++ [src] }, ?_, ?_⟩
          · simp [AssignSource, hb, hany, setKnobs, mapGet_mapSet_self]
          · exact nodup_append_fresh b.sources src hnd hmem
        · simp only [controlBinding, hs, hk] at hb
          simp at hb

/-- Concrete fixtures for the assignment claims. -/
def srcMusic : Source :=
  { type := .PlaybackStream, name := "Music", binaryName := "mpd" }

def srcChat : Source :=
  { type := .PlaybackStream, name := "Chat", binaryName := "discord" }

/-- A configuration with one slider binding that already holds `srcMusic`. -/
def cfgMusic : Config :=
  { device := devFix,
    controls :=
      { sliders :=
          [("slider3", { path := "Group3/Slider", value := 40, sources := [srcMusic] })],
        knobs := [] } }

/-- C7 witness: re-assigning `srcMusic` to `slider3` of `cfgMusic` is a
no-op and the no-duplicate invariant is preserved. -/
theorem C7_assign_idempotent_witness :
    AssignSource "slider" "slider3" srcMusic cfgMusic =
      { config := cfgMusic, notifications := [], saveScheduled := false } ∧
    (∃ b', controlBinding "slider" "slider3"
        ((AssignSource "slider" "slider3" srcMusic cfgMusic).config) = some b' ∧
      b'.sources.Nodup) :=
  ⟨(C7_assign_idempotent "slider" "slider3" srcMusic
      { path := "Group3/Slider", value := 40, sources := [srcMusic] } cfgMusic
      (by decide)).1 (by decide),
    (C7_assign_idempotent "slider" "slider3" srcMusic
      { path := "Group3/Slider", value := 40, sources := [srcMusic] } cfgMusic
      (by decide)).2 (by decide)⟩

theorem mapSet_self {α : Type} (l : List (String × α)) (k : String) (v : α)
    (h : mapGet l k = some v) : mapSet l k v = l := by
  induction l with
  | nil => simp [mapGet] at h
  | cons p t ih =>
    obtain ⟨k', v'⟩ := p
    by_cases hk : k' = k
    · subst hk
      rw [mapGet_cons_self] at h
      cases h
      rw [mapSet, if_pos rfl]
    · rw [mapGet_cons_ne _ _ _ _ hk] at h
      rw [mapSet, if_neg hk, ih h]

theorem setSliders_self (config : Config) :
    setSliders config config.controls.sliders = config := rfl

theorem setKnobs_self (config : Config) :
    setKnobs config config.controls.knobs = config := rfl

theorem filter_not_sameSource (l : List Source) (s : Source) :
    (l.filter fun e => !(sameSource e s)) = l.filter (fun e => e ≠ s) := by
  apply List.filter_congr
  intro e _
  rw [sameSource_eq_decide]
  by_cases h : e = s <;> simp [h]

/-- C8: `UnassignSource` removes exactly the stored targets equal to the
given triple: the binding keeps its `currentValue`, every other binding is
untouched, and unassigning a triple not present leaves the whole stored
configuration unchanged. -/
theorem C8_unassign_exact (controlType controlId : String) (src : Source)
    (b : SliderConfig) (config : Config)
    (hb : controlBinding controlType controlId config = some b) :
    (∃ b', controlBinding controlType controlId
        ((UnassignSource controlType controlId src config).config) = some b' ∧
      b'.value = b.value ∧
      b'.sources = b.sources.filter (fun e => e ≠ src)) ∧
    (∀ ct₂ cid₂, ct₂ ≠ controlType ∨ cid₂ ≠ controlId →
      controlBinding ct₂ cid₂
          ((UnassignSource controlType controlId src config).config) =
        controlBinding ct₂ cid₂ config) ∧
    ((∀ e ∈ b.sources, e ≠ src) →
      (UnassignSource controlType controlId src config).config = config) := by
  by_cases hs : controlType = "slider"
  case pos =>
    subst hs
    simp only [controlBinding] at hb
    refine ⟨⟨{ b with sources := b.sources.filter (fun e => e ≠ src) }, ?_, rfl, rfl⟩, ?_, ?_⟩
    · simp [UnassignSource, hb, setSliders, controlBinding, mapGet_mapSet_self,
        filter_not_sameSource]
    · intro ct₂ cid₂ hne
      by_cases hs₂ : ct₂ = "slider"
      · subst hs₂
        rcases hne with hne | hne
        · exact absurd rfl hne
        · simp [UnassignSource, hb, setSliders, controlBinding,
            mapGet_mapSet_ne _ _ _ _ hne]
      · by_cases hk₂ : ct₂ = "knob"
        · subst hk₂
          simp [UnassignSource, hb, setSliders, controlBinding]
        · simp [controlBinding, hs₂, hk₂]
    · intro hnone
      have hfilter : (b.sources.filter fun e => !(sameSource e src)) = b.sources := by
        rw [filter_not_sameSource]
        refine List.filter_eq_self.2 ?_
        intro a ha
        simpa using hnone a ha
      simp only [UnassignSource, hb, hfilter]
      rw [show { b with sources := b.sources } = b from rfl,
        mapSet_self _ _ _ hb, setSliders_self]
  case neg =>
    by_cases hk : controlType = "knob"
    case pos =>
      subst hk
      simp only [controlBinding] at hb
      refine ⟨⟨{ b with sources := b.sources.filter (fun e => e ≠ src) }, ?_, rfl, rfl⟩, ?_, ?_⟩
      · simp [UnassignSource, hb, setKnobs, controlBinding, mapGet_mapSet_self,
          filter_not_sameSource]
      · intro ct₂ cid₂ hne
        by_cases hk₂ : ct₂ = "knob"
        · subst hk₂
          rcases hne with hne | hne
          · exact absurd rfl hne
          · simp [UnassignSource, hb, setKnobs, controlBinding,
              mapGet_mapSet_ne _ _ _ _ hne]
        · by_cases hs₂ : ct₂ = "slider"
          · subst hs₂
            simp [UnassignSource, hb, setKnobs, controlBinding]
          · simp [controlBinding, hs₂, hk₂]
      · intro hnone
        have hfilter : (b.sources.filter fun e => !(sameSource e src)) = b.sources := by
          rw [filter_not_sameSource]
          refine List.filter_eq_self.2 ?_
          intro a ha
          simpa using hnone a ha
        simp only [UnassignSource, hb, hfilter]
        rw [show { b with sources := b.sources } = b from rfl,
          mapSet_self _ _ _ hb, setKnobs_self]
    case neg =>
      simp only [controlBinding, hs, hk] at hb
      simp at hb

/-- A configuration whose `slider3` binding holds two targets. -/
def cfgTwoTargets : Config :=
  { device := devFix,
    controls :=
      { sliders :=
          [("slider3",
            { path := "Group3/Slider", value := 40, sources := [srcMusic, srcChat] }),
           ("slider4",
            { path := "Group4/Slider", value := 60, sources := [srcChat] })],
        knobs := [] } }

/-- A source assigned nowhere in the fixtures. -/
def srcAbsent : Source :=
  { type := .RecordStream, name := "Mic", binaryName := "obs" }

/-- C8 witness: on the two-target binding `slider3` of `cfgTwoTargets`,
unassigning `srcChat` removes exactly that target, keeps the value and the
sibling binding `slider4`, and unassigning the absent `srcAbsent` leaves
the configuration unchanged. -/
theorem C8_unassign_exact_witness :
    (∃ b', controlBinding "slider" "slider3"
        ((UnassignSource "slider" "slider3" srcChat cfgTwoTargets).config) = some b' ∧
      b'.value = (40 : Int) ∧
      b'.sources = [srcMusic, srcChat].filter (fun e => e ≠ srcChat)) ∧
    controlBinding "slider" "slider4"
        ((UnassignSource "slider" "slider3" srcChat cfgTwoTargets).config) =
      controlBinding "slider" "slider4" cfgTwoTargets ∧
    (UnassignSource "slider" "slider3" srcAbsent cfgTwoTargets).config =
      cfgTwoTargets :=
  ⟨(C8_unassign_exact "slider" "slider3" srcChat
      { path := "Group3/Slider", value := 40, sources := [srcMusic, srcChat] }
      cfgTwoTargets (by decide)).1,
    (C8_unassign_exact "slider" "slider3" srcChat
      { path := "Group3/Slider", value := 40, sources := [srcMusic, srcChat] }
      cfgTwoTargets (by decide)).2.1 "slider" "slider4" (Or.inr (by decide)),
    (C8_unassign_exact "slider" "slider3" srcAbsent
      { path := "Group3/Slider", value := 40, sources := [srcMusic, srcChat] }
      cfgTwoTargets (by decide)).2.2 (by decide)⟩

theorem trimPrefixStr_append (pre t : String) :
    trimPrefixStr (pre ++ t) pre = t := by
  unfold trimPrefixStr
  rw [String.data_append]
  have hpre : pre.data.isPrefixOf (pre.data ++ t.data) = true := by
    rw [ List.isPrefixOf_iff_prefix]
    exact List.prefix_append _ _
  simp only [hpre, if_true]
  rw [List.drop_left]

/-- The path the claim says a freshly created binding receives: the
control id's numeric suffix substituted into `GroupN/Slider` or
`GroupN/Knob`. -/
def claimNewPath (controlType : String) (n : Nat) : String :=
  match controlType with
  | "slider" => "Group" ++ Nat.repr n ++ "/Slider"
  | _ => "Group" ++ Nat.repr n ++ "/Knob"

/-- C9: `UpdateControlValue` on a control id with no existing binding does
not ignore the update: it creates the binding under that id, with the
numeric suffix substituted into the `GroupN/Slider` / `GroupN/Knob` path,
the given value and an empty target list, and schedules the debounced
save that persists it. -/
theorem C9_update_creates_binding (controlType controlId : String)
    (n : Nat) (v : Int) (config : Config)
    (h : (controlType = "slider" ∧ controlId = "slider" ++ Nat.repr n ∧
            mapGet config.controls.sliders controlId = none) ∨
         (controlType = "knob" ∧ controlId = "knob" ++ Nat.repr n ∧
            mapGet config.controls.knobs controlId = none)) :
    controlBinding controlType controlId
        ((UpdateControlValue controlType controlId v config).config) =
      some { path := claimNewPath controlType n, value := v, sources := [] } ∧
    (UpdateControlValue controlType controlId v config).saveScheduled = true := by
  rcases h with ⟨hct, hcid, hnone⟩ | ⟨hct, hcid, hnone⟩ <;> subst hct <;> subst hcid <;>
    simp [UpdateControlValue, hnone, trimPrefixStr_append, setSliders, setKnobs,
      controlBinding, mapGet_mapSet_self, claimNewPath]

/-- C9 witness: updating the absent binding `slider5` of `cfgOneSlider`
creates `{path := "Group5/Slider", value := 77, sources := []}` and
schedules a save. -/
theorem C9_update_creates_binding_witness :
    (("slider" = "slider" ∧ "slider5" = "slider" ++ Nat.repr 5 ∧
        mapGet cfgOneSlider.controls.sliders "slider5" = none) ∨
      ("slider" = "knob" ∧ "slider5" = "knob" ++ Nat.repr 5 ∧
        mapGet cfgOneSlider.controls.knobs "slider5" = none)) ∧
    (controlBinding "slider" "slider5"
        ((UpdateControlValue "slider" "slider5" 77 cfgOneSlider).config) =
      some { path := claimNewPath "slider" 5, value := 77, sources := [] } ∧
    (UpdateControlValue "slider" "slider5" 77 cfgOneSlider).saveScheduled = true) :=
  ⟨Or.inl ⟨rfl, by decide, by decide⟩,
    C9_update_creates_binding "slider" "slider5" 5 77 cfgOneSlider
      (Or.inl ⟨rfl, by decide, by decide⟩)⟩

/-- C10: `UnassignSource` unconditionally publishes `source.unassigned`
(payload: type and name only) and schedules a save, even when nothing
matched; `AssignSource` on an unknown control id leaves the configuration
unchanged yet still publishes `source.assigned` with `initialValue` 0 and
schedules a save; and `AssignSource` of an already-present source
publishes nothing and schedules nothing. -/
theorem C10_notification_edge_cases (controlType controlId : String)
    (src : Source) (config : Config) :
    ((UnassignSource controlType controlId src config).notifications =
        [.sourceUnassigned controlType controlId src.type src.name] ∧
      (UnassignSource controlType controlId src config).saveScheduled = true) ∧
    (controlBinding controlType controlId config = none →
      (AssignSource controlType controlId src config).config = config ∧
      (AssignSource controlType controlId src config).notifications =
        [.sourceAssigned controlType controlId src 0] ∧
      (AssignSource controlType controlId src config).saveScheduled = true) ∧
    (∀ b, controlBinding controlType controlId config = some b →
      src ∈ b.sources →
      AssignSource controlType controlId src config =
        { config := config, notifications := [], saveScheduled := false }) := by
  refine ⟨⟨rfl, rfl⟩, ?_, ?_⟩
  · intro hnone
    by_cases hs : controlType = "slider"
    · subst hs
      simp only [controlBinding] at hnone
      simp [AssignSource, hnone]
    · by_cases hk : controlType = "knob"
      · subst hk
        simp only [controlBinding] at hnone
        simp [AssignSource, hnone]
      · have h1 : controlType ≠ "slider" := hs
        have h2 : controlType ≠ "knob" := hk
        constructor
        · simp [AssignSource, h1, h2]
        · constructor
          · simp [AssignSource, h1, h2]
          · simp [AssignSource, h1, h2]
  · intro b hb hmem
    exact assign_duplicate_noop controlType controlId src b config hb hmem

/-- C10 witness: on `cfgMusic`, unassign at the unknown id `slider9`
still notifies and schedules a save; assign at `slider9` leaves the
configuration unchanged but notifies with initial value 0 and schedules a
save; assigning the duplicate `srcMusic` to `slider3` is silent. -/
theorem C10_notification_edge_cases_witness :
    ((UnassignSource "slider" "slider9" srcMusic cfgMusic).notifications =
        [.sourceUnassigned "slider" "slider9" srcMusic.type srcMusic.name] ∧
      (UnassignSource "slider" "slider9" srcMusic cfgMusic).saveScheduled = true) ∧
    ((AssignSource "slider" "slider9" srcMusic cfgMusic).config = cfgMusic ∧
      (AssignSource "slider" "slider9" srcMusic cfgMusic).notifications =
        [.sourceAssigned "slider" "slider9" srcMusic 0] ∧
      (AssignSource "slider" "slider9" srcMusic cfgMusic).saveScheduled = true) ∧
    AssignSource "slider" "slider3" srcMusic cfgMusic =
      { config := cfgMusic, notifications := [], saveScheduled := false } :=
  ⟨(C10_notification_edge_cases "slider" "slider9" srcMusic cfgMusic).1,
    (C10_notification_edge_cases "slider" "slider9" srcMusic cfgMusic).2.1
      (by decide),
    (C10_notification_edge_cases "slider" "slider3" srcMusic cfgMusic).2.2
      { path := "Group3/Slider", value := 40, sources := [srcMusic] }
      (by decide) (by decide)⟩


/-- `src/configuration/types.go`: `MidiDeviceType`. -/
inductive MidiDeviceType
  | Generic
  | KorgNanoKontrol2
deriving DecidableEq

/-- `src/configuration/types.go`: `MidiDevice` (legacy device record the
MIDI client is constructed with). -/
structure MidiDevice where
  name : String
  type : MidiDeviceType
  midiInName : String
  midiOutName : String
deriving DecidableEq

/-- `src/configuration/types.go`: `MidiMessageType` (`None` is the empty
string constant). -/
inductive MidiMessageType
  | None
  | Note
  | ControlChange
  | ProgramChange
deriving DecidableEq

/-- `src/configuration/types.go`: `MidiMessage`.  Fields the Go code
leaves at their zero value default to 0 / "". -/
structure MidiMessage where
  deviceName : String := ""
  deviceControlPath : String := ""
  type : MidiMessageType := .None
  channel : Nat := 0
  note : Nat := 0
  controller : Nat := 0
  program : Nat := 0
  minValue : Nat := 0
  maxValue : Nat := 0
deriving DecidableEq

/-- `src/configuration/types.go`: `PulseAudioActionType`.  `ToggleMute` is
referenced by the MIDI client's action dispatch. -/
inductive PulseAudioActionType
  | SetVolume
  | SetDefaultOutput
  | MediaPlayPause
  | ToggleMute
deriving DecidableEq

/-- `src/configuration/types.go`: `TypedTarget`. -/
structure TypedTarget where
  type : PulseAudioTargetType
  name : String
  binaryName : String
deriving DecidableEq

/-- `src/configuration/types.go`: `Target` (legacy name-only target). -/
structure Target where
  name : String
deriving DecidableEq

/-- The Go `Action.Target` field is an untyped `interface{}` holding either
a `*TypedTarget` or a `*Target`; modelled as a closed tagged variant. -/
inductive ActionTarget
  | typed (t : TypedTarget)
  | plain (t : Target)
deriving DecidableEq

/-- `src/configuration/types.go`: `Action`. -/
structure Action where
  type : PulseAudioActionType
  target : ActionTarget
deriving DecidableEq

/-- `src/configuration/types.go`: `Rule`. -/
structure Rule where
  midiMessage : MidiMessage
  actions : List Action
deriving DecidableEq

/-- Decimal digits to a number, most significant first. -/
def digitsToNat (l : List Char) : Nat :=
  l.foldl (fun a c => 10 * a + (c.toNat - 48)) 0

/-- `pulsekontrol.go` `extractGroupNumber`: models
`fmt.Sscanf(path, "Group%d/", &groupNumber)` — the literal `Group`, an
optionally signed decimal number, then the literal `/`; input after the
matched format is ignored by `Sscanf`. -/
def extractGroupNumber (path : String) : Option Int :=
  let cs := path.data
  if cs.take 5 = ['G', 'r', 'o', 'u', 'p'] then
    let rest := cs.drop 5
    let signed : Bool × List Char :=
      match rest with
      | '-' :: t => (true, t)
      | _ => (false, rest)
    let digits := signed.2.takeWhile (fun c => c.isDigit)
    let after := signed.2.dropWhile (fun c => c.isDigit)
    if digits = [] then none
    else
      match after with
      | '/' :: _ =>
        some (if signed.1 then -(digitsToNat digits : Int) else (digitsToNat digits : Int))
      | _ => none
  else none

/-- One loop iteration of the slider half of `createRulesFromConfig`
(`pulsekontrol.go:237-283`): a non-empty binding whose path parses yields
one rule; an empty binding or a parse failure (`continue`) yields none.
`uint8(groupNumber - 1)` is modelled by `emod 256`. -/
def sliderRuleOf (midiDevice : MidiDevice) (entry : String × SliderConfig) :
    List Rule :=
  if entry.2.sources.length > 0 then
    match extractGroupNumber entry.2.path with
    | none => []
    | some groupNumber =>
      [{ midiMessage :=
          { deviceName := midiDevice.name,
            deviceControlPath := entry.2.path,
            type := .ControlChange,
            channel := 0,
            controller := ((groupNumber - 1).emod 256).toNat },
         actions := entry.2.sources.map (fun source =>
          { type := .SetVolume,
            target := .typed
              { type := source.type, name := source.name,
                binaryName := source.binaryName } }) }]
  else []

/-- One loop iteration of the knob half of `createRulesFromConfig`
(`pulsekontrol.go:286-332`); knob controllers are `16 + group - 1`. -/
def knobRuleOf (midiDevice : MidiDevice) (entry : String × KnobConfig) :
    List Rule :=
  if entry.2.sources.length > 0 then
    match extractGroupNumber entry.2.path with
    | none => []
    | some groupNumber =>
      [{ midiMessage :=
          { deviceName := midiDevice.name,
            deviceControlPath := entry.2.path,
            type := .ControlChange,
            channel := 0,
            controller := ((16 + groupNumber - 1).emod 256).toNat },
         actions := entry.2.sources.map (fun source =>
          { type := .SetVolume,
            target := .typed
              { type := source.type, name := source.name,
                binaryName := source.binaryName } }) }]
  else []

/-- `pulsekontrol.go` `createRulesFromConfig`: the slider loop followed by
the knob loop, each appending at most one rule per binding, iterating the
two maps in their (Go-unspecified) iteration order — here the association
list order. -/
def createRulesFromConfig (config : Config) (midiDevice : MidiDevice) :
    List Rule :=
  config.controls.sliders.flatMap (sliderRuleOf midiDevice) ++
    config.controls.knobs.flatMap (knobRuleOf midiDevice)


/-- The canonical slider path for group index `i`, as the spec writes it. -/
def canonSliderPath (i : Nat) : String := "Group" ++ Nat.repr i ++ "/Slider"

/-- The canonical knob path for group index `i`. -/
def canonKnobPath (i : Nat) : String := "Group" ++ Nat.repr i ++ "/Knob"

theorem extractGroupNumber_canonSlider (i : Nat) (h1 : 1 ≤ i) (h2 : i ≤ 8) :
    extractGroupNumber (canonSliderPath i) = some (i : Int) := by
  interval_cases i <;> decide

theorem extractGroupNumber_canonKnob (i : Nat) (h1 : 1 ≤ i) (h2 : i ≤ 8) :
    extractGroupNumber (canonKnobPath i) = some (i : Int) := by
  interval_cases i <;> decide

theorem slider_controller_eq (i : Nat) (h1 : 1 ≤ i) (h2 : i ≤ 8) :
    (((i : Int) - 1).emod 256).toNat = i - 1 := by
  interval_cases i <;> decide

theorem knob_controller_eq (i : Nat) (h1 : 1 ≤ i) (h2 : i ≤ 8) :
    ((16 + (i : Int) - 1).emod 256).toNat = 16 + i - 1 := by
  interval_cases i <;> decide

/-- The claim's wording of a rule action: one `SetVolume` action per
target of the binding. -/
def specActionFor (source : Source) : Action :=
  { type := .SetVolume,
    target := .typed
      { type := source.type, name := source.name,
        binaryName := source.binaryName } }

/-- The claim's wording of the rule compiled for a slider binding of
index `i`: pattern `{ControlChange, channel 0, controller i-1}` with one
`SetVolume` action per target. -/
def specSliderRuleRel (entry : String × SliderConfig) (r : Rule) : Prop :=
  ∃ i, 1 ≤ i ∧ i ≤ 8 ∧ entry.2.path = canonSliderPath i ∧
    r.midiMessage.type = .ControlChange ∧
    r.midiMessage.channel = 0 ∧
    r.midiMessage.controller = i - 1 ∧
    r.actions = entry.2.sources.map specActionFor

/-- The claim's wording of the rule compiled for a knob binding of index
`i`: pattern `{ControlChange, channel 0, controller 16+i-1}`. -/
def specKnobRuleRel (entry : String × KnobConfig) (r : Rule) : Prop :=
  ∃ i, 1 ≤ i ∧ i ≤ 8 ∧ entry.2.path = canonKnobPath i ∧
    r.midiMessage.type = .ControlChange ∧
    r.midiMessage.channel = 0 ∧
    r.midiMessage.controller = 16 + i - 1 ∧
    r.actions = entry.2.sources.map specActionFor

theorem sliders_rules_forall₂ (dev : MidiDevice)
    (l : List (String × SliderConfig))
    (h : ∀ p ∈ l,
      p.2.path ∈ (List.range 8).map (fun k => canonSliderPath (k + 1))) :
    List.Forall₂ specSliderRuleRel (l.filter (fun p => p.2.sources ≠ []))
      (l.flatMap (sliderRuleOf dev)) := by
  induction l with
  | nil => simp
  | cons p t ih =>
    have hp := h p (List.mem_cons_self p t)
    have ht : ∀ q ∈ t,
        q.2.path ∈ (List.range 8).map (fun k => canonSliderPath (k + 1)) :=
      fun q hq => h q (List.mem_cons_of_mem p hq)
    rw [List.mem_map] at hp
    obtain ⟨k, hk, hpath⟩ := hp
    rw [List.mem_range] at hk
    rw [List.flatMap_cons]
    by_cases hem : p.2.sources = []
    · have hrul : sliderRuleOf dev p = [] := by
        simp [sliderRuleOf, hem]
      have hfil : (p :: t).filter (fun p => p.2.sources ≠ []) =
          t.filter (fun p => p.2.sources ≠ []) := by
        simp [List.filter_cons, hem]
      rw [hrul, List.nil_append, hfil]
      exact ih ht
    · have hgn : extractGroupNumber p.2.path = some ((k + 1 : Nat) : Int) := by
        rw [← hpath]
        exact extractGroupNumber_canonSlider (k + 1) (by omega) (by omega)
      have hlen : p.2.sources.length > 0 := List.length_pos.2 hem
      have hrul : sliderRuleOf dev p =
          [{ midiMessage :=
              { deviceName := dev.name,
                deviceControlPath := p.2.path,
                type := .ControlChange,
                channel := 0,
                controller := ((((k + 1 : Nat) : Int)) - 1).emod 256 |>.toNat },
             actions := p.2.sources.map specActionFor }] := by
        rw [sliderRuleOf, if_pos hlen, hgn]
        rfl
      have hfil : (p :: t).filter (fun p => p.2.sources ≠ []) =
          p :: t.filter (fun p => p.2.sources ≠ []) := by
        simp [List.filter_cons, hem]
      rw [hrul, hfil, List.cons_append, List.nil_append]
      refine List.Forall₂.cons ?_ (ih ht)
      refine ⟨k + 1, by omega, by omega, hpath.symm, rfl, rfl, ?_, rfl⟩
      exact slider_controller_eq (k + 1) (by omega) (by omega)

theorem knobs_rules_forall₂ (dev : MidiDevice)
    (l : List (String × KnobConfig))
    (h : ∀ p ∈ l,
      p.2.path ∈ (List.range 8).map (fun k => canonKnobPath (k + 1))) :
    List.Forall₂ specKnobRuleRel (l.filter (fun p => p.2.sources ≠ []))
      (l.flatMap (knobRuleOf dev)) := by
  induction l with
  | nil => simp
  | cons p t ih =>
    have hp := h p (List.mem_cons_self p t)
    have ht : ∀ q ∈ t,
        q.2.path ∈ (List.range 8).map (fun k => canonKnobPath (k + 1)) :=
      fun q hq => h q (List.mem_cons_of_mem p hq)
    rw [List.mem_map] at hp
    obtain ⟨k, hk, hpath⟩ := hp
    rw [List.mem_range] at hk
    rw [List.flatMap_cons]
    by_cases hem : p.2.sources = []
    · have hrul : knobRuleOf dev p = [] := by
        simp [knobRuleOf, hem]
      have hfil : (p :: t).filter (fun p => p.2.sources ≠ []) =
          t.filter (fun p => p.2.sources ≠ []) := by
        simp [List.filter_cons, hem]
      rw [hrul, List.nil_append, hfil]
      exact ih ht
    · have hgn : extractGroupNumber p.2.path = some ((k + 1 : Nat) : Int) := by
        rw [← hpath]
        exact extractGroupNumber_canonKnob (k + 1) (by omega) (by omega)
      have hlen : p.2.sources.length > 0 := List.length_pos.2 hem
      have hrul : knobRuleOf dev p =
          [{ midiMessage :=
              { deviceName := dev.name,
                deviceControlPath := p.2.path,
                type := .ControlChange,
                channel := 0,
                controller := (16 + (((k + 1 : Nat) : Int)) - 1).emod 256 |>.toNat },
             actions := p.2.sources.map specActionFor }] := by
        rw [knobRuleOf, if_pos hlen, hgn]
        rfl
      have hfil : (p :: t).filter (fun p => p.2.sources ≠ []) =
          p :: t.filter (fun p => p.2.sources ≠ []) := by
        simp [List.filter_cons, hem]
      rw [hrul, hfil, List.cons_append, List.nil_append]
      refine List.Forall₂.cons ?_ (ih ht)
      refine ⟨k + 1, by omega, by omega, hpath.symm, rfl, rfl, ?_, rfl⟩
      exact knob_controller_eq (k + 1) (by omega) (by omega)

/-- C4: on a configuration whose binding paths are the canonical
`GroupN/Slider` / `GroupN/Knob` forms (N in 1..8), rule compilation emits
exactly one rule per binding with a non-empty target list (none for empty
ones) — slider rules first, then knob rules — and the rule for index `i`
matches `{ControlChange, channel 0, controller i-1}` (sliders) or
`{ControlChange, channel 0, controller 16+i-1}` (knobs), carrying one
`SetVolume` action per target. -/
theorem C4_rule_shape (config : Config) (midiDevice : MidiDevice)
    (hs : ∀ p ∈ config.controls.sliders,
      p.2.path ∈ (List.range 8).map (fun k => canonSliderPath (k + 1)))
    (hk : ∀ p ∈ config.controls.knobs,
      p.2.path ∈ (List.range 8).map (fun k => canonKnobPath (k + 1))) :
    ∃ rs ks,
      createRulesFromConfig config midiDevice = rs ++ ks ∧
      List.Forall₂ specSliderRuleRel
        (config.controls.sliders.filter (fun p => p.2.sources ≠ [])) rs ∧
      List.Forall₂ specKnobRuleRel
        (config.controls.knobs.filter (fun p => p.2.sources ≠ [])) ks :=
  ⟨config.controls.sliders.flatMap (sliderRuleOf midiDevice),
    config.controls.knobs.flatMap (knobRuleOf midiDevice),
    rfl,
    sliders_rules_forall₂ midiDevice config.controls.sliders hs,
    knobs_rules_forall₂ midiDevice config.controls.knobs hk⟩

/-- Fixture MIDI device: `pulsekontrol.go:119-124` always constructs the
device with type `KorgNanoKontrol2`. -/
def midiDevFix : MidiDevice :=
  { name := "KORG nanoKONTROL2", type := .KorgNanoKontrol2,
    midiInName := "in", midiOutName := "out" }

/-- Fixture for the rule-compilation claims: one non-empty slider, one
empty slider, one non-empty knob. -/
def cfgRules : Config :=
  { device := devFix,
    controls :=
      { sliders :=
          [("slider3", { path := "Group3/Slider", value := 40, sources := [srcMusic] }),
           ("slider1", { path := "Group1/Slider", value := 10, sources := [] })],
        knobs :=
          [("knob2", { path := "Group2/Knob", value := 30, sources := [srcChat] })] } }

/-- C4 witness: instantiates the theorem on `cfgRules`. -/
theorem C4_rule_shape_witness :
    (∀ p ∈ cfgRules.controls.sliders,
      p.2.path ∈ (List.range 8).map (fun k => canonSliderPath (k + 1))) ∧
    (∀ p ∈ cfgRules.controls.knobs,
      p.2.path ∈ (List.range 8).map (fun k => canonKnobPath (k + 1))) ∧
    (∃ rs ks,
      createRulesFromConfig cfgRules midiDevFix = rs ++ ks ∧
      List.Forall₂ specSliderRuleRel
        (cfgRules.controls.sliders.filter (fun p => p.2.sources ≠ [])) rs ∧
      List.Forall₂ specKnobRuleRel
        (cfgRules.controls.knobs.filter (fun p => p.2.sources ≠ [])) ks) :=
  ⟨by decide, by decide, C4_rule_shape cfgRules midiDevFix (by decide) (by decide)⟩


/-- Two configurations holding the same slider map (same key-value pairs)
under the two possible Go map iteration orders. -/
def cfgOrderA : Config :=
  { device := devFix,
    controls :=
      { sliders :=
          [("slider1", { path := "Group1/Slider", value := 10, sources := [srcMusic] }),
           ("slider2", { path := "Group2/Slider", value := 20, sources := [srcChat] })],
        knobs := [] } }

/-- Same map as `cfgOrderA`, opposite iteration order. -/
def cfgOrderB : Config :=
  { device := devFix,
    controls :=
      { sliders :=
          [("slider2", { path := "Group2/Slider", value := 20, sources := [srcChat] }),
           ("slider1", { path := "Group1/Slider", value := 10, sources := [srcMusic] })],
        knobs := [] } }

/-- C5 counterexample: `createRulesFromConfig` iterates the Go maps in
their (randomized) iteration order, not by index 1..8.  The same slider
map, presented in the other iteration order, compiles to a rule list in
controller order [1, 0] — not the index order [0, 1] the claim requires —
so two compilations of the same unchanged Configuration need not be
order-equal. -/
theorem C5_order_counterexample :
    cfgOrderA.controls.sliders.Perm cfgOrderB.controls.sliders ∧
    (createRulesFromConfig cfgOrderB midiDevFix).map
        (fun r => r.midiMessage.controller) = [1, 0] ∧
    createRulesFromConfig cfgOrderB midiDevFix ≠
      createRulesFromConfig cfgOrderA midiDevFix :=
  ⟨by decide, by decide, by decide⟩

/-- C5 (amended): rule compilation is a pure function of the configuration
together with its map iteration order: slider rules always precede knob
rules, within each group the output follows the iteration order
entry-by-entry, and changing one binding's targets changes only that
binding's own contribution — the surrounding rule segments do not depend
on it. -/
theorem C5_compile_frame (d : DeviceConfig) (dev : MidiDevice)
    (pre post : List (String × SliderConfig)) (k : String)
    (knobs : List (String × KnobConfig))
    (preK postK : List (String × KnobConfig)) (k₂ : String)
    (sliders : List (String × SliderConfig)) :
    (∀ c : SliderConfig,
      createRulesFromConfig ⟨d, ⟨pre ++ (k, c) :: post, knobs⟩⟩ dev =
        pre.flatMap (sliderRuleOf dev) ++ sliderRuleOf dev (k, c) ++
          (post.flatMap (sliderRuleOf dev) ++
            knobs.flatMap (knobRuleOf dev))) ∧
    (∀ c : KnobConfig,
      createRulesFromConfig ⟨d, ⟨sliders, preK ++ (k₂, c) :: postK⟩⟩ dev =
        sliders.flatMap (sliderRuleOf dev) ++
          (preK.flatMap (knobRuleOf dev) ++ knobRuleOf dev (k₂, c) ++
            postK.flatMap (knobRuleOf dev))) := by
  constructor <;> intro c <;>
    simp [createRulesFromConfig, List.flatMap_append, List.flatMap_cons,
      List.append_assoc]


/-- `src/pulseaudio/paclient.go`: `Stream` (the live handle `paStream` is
not part of the observable state). -/
structure Stream where
  name : String
  fullName : String
  binaryName : String
deriving DecidableEq

/-- The live audio-server state a `PAClient` observes on `refreshStreams`:
the four object lists plus the current default sink/source full names
(`none` models a failing `GetDefaultSink`/`GetDefaultSource` query). -/
structure PAEnv where
  outputs : List Stream
  inputs : List Stream
  playbackStreams : List Stream
  recordStreams : List Stream
  defaultSink : Option String
  defaultSource : Option String
deriving DecidableEq

/-- Observable effects of the PulseAudio client: volume writes (the Go
`float32` percent is kept as the exact fraction `num/den` its callers
compute), the `Config migration needed` log line of
`ProcessVolumeAction`, and the mute/default-output calls. -/
inductive PAEvent
  | setVolume (stream : Stream) (num den : Int)
  | migrationNeededLog (targetName streamBinary : String)
  | toggleMuteCall (target : ActionTarget)
  | setDefaultOutputCall (target : ActionTarget)
deriving DecidableEq

/-- `paclient.go` `smartMatchStreams`: with a non-empty binary name an
exact (name, binaryName) match is required and no migration candidate is
reported; with an empty (legacy) binary name every name match is returned
and the first match carrying a non-empty binary name is the migration
candidate. -/
def smartMatchStreams (streams : List Stream) (target : TypedTarget) :
    List Stream × Option Stream :=
  if target.binaryName ≠ "" then
    (streams.filter (fun st =>
      st.name = target.name ∧ st.binaryName = target.binaryName), none)
  else
    let matchedStreams := streams.filter (fun st => st.name = target.name)
    (matchedStreams, matchedStreams.find? (fun st => st.binaryName ≠ ""))

/-- `paclient.go` `SmartMatchStreams`: public wrapper used by the startup
sweep; always probes with an empty binary name and only for the two
stream categories. -/
def SmartMatchStreams (env : PAEnv) (sourceType : PulseAudioTargetType)
    (sourceName : String) : List Stream × Option Stream :=
  let target : TypedTarget :=
    { type := sourceType, name := sourceName, binaryName := "" }
  match sourceType with
  | .PlaybackStream => smartMatchStreams env.playbackStreams target
  | .RecordStream => smartMatchStreams env.recordStreams target
  | _ => ([], none)

/-- `paclient.go` `ProcessVolumeAction`: resolves the action's target
against the live state and sets the volume on every resolved object.  For
stream categories with a legacy target it only LOGS that a migration
would be needed (the `TODO` at paclient.go:399) — the configuration store
is never touched from here.  `percent` is passed as `num/den`. -/
def ProcessVolumeAction (env : PAEnv) (action : Action) (num den : Int) :
    List PAEvent :=
  match action.target with
  | .typed target =>
    match target.type with
    | .OutputDevice =>
      let streams :=
        if target.name = "Default" then
          match env.defaultSink with
          | some n => env.outputs.filter (fun st => st.fullName = n)
          | none => []
        else env.outputs.filter (fun st => st.name = target.name)
      streams.map (fun st => .setVolume st num den)
    | .InputDevice =>
      let streams :=
        if target.name = "Default" then
          match env.defaultSource with
          | some n => env.inputs.filter (fun st => st.fullName = n)
          | none => []
        else env.inputs.filter (fun st => st.name = target.name)
      streams.map (fun st => .setVolume st num den)
    | .PlaybackStream =>
      let m := smartMatchStreams env.playbackStreams target
      (match m.2 with
       | some migrationNeeded =>
         [.migrationNeededLog target.name migrationNeeded.binaryName]
       | none => []) ++ m.1.map (fun st => .setVolume st num den)
    | .RecordStream =>
      let m := smartMatchStreams env.recordStreams target
      (match m.2 with
       | some migrationNeeded =>
         [.migrationNeededLog target.name migrationNeeded.binaryName]
       | none => []) ++ m.1.map (fun st => .setVolume st num den)
  | .plain _ => []

/-- `midi.go` `doActions` (part_008:166-215), one rule's action loop.  The
Go `return` on a zero value in the `ToggleMute` / `SetDefaultOutput`
cases aborts the remaining actions; `uint8` subtraction `maxValue -
minValue` is modelled mod 256; the unknown-action default case only
logs. -/
def doActionsAux (env : PAEnv) (rule : Rule) (value : Nat) :
    List Action → List PAEvent
  | [] => []
  | action :: rest =>
    match action.type with
    | .SetVolume =>
      let minValue := if rule.midiMessage.minValue ≠ 0 then rule.midiMessage.minValue else 0
      let maxValue := if rule.midiMessage.maxValue ≠ 0 then rule.midiMessage.maxValue else 127
      let den := (maxValue + 256 - minValue) % 256
      ProcessVolumeAction env action (value : Int) (den : Int) ++
        doActionsAux env rule value rest
    | .ToggleMute =>
      if value = 0 then []
      else .toggleMuteCall action.target :: doActionsAux env rule value rest
    | .SetDefaultOutput =>
      if value = 0 then []
      else .setDefaultOutputCall action.target :: doActionsAux env rule value rest
    | .MediaPlayPause => doActionsAux env rule value rest

/-- All effects of one rule for one hardware value. -/
def doActions (env : PAEnv) (rule : Rule) (value : Nat) : List PAEvent :=
  doActionsAux env rule value rule.actions

/-- `midi.go` `MidiClient.Run`, `ControlChangeMsg` case (part_008:245-332):
filters the matching rules, then — whenever a config manager is attached
and the device type is `KorgNanoKontrol2` (which `Run` in pulsekontrol.go
always sets) — updates the store for the slider range 0..7 or the knob
range 16..23 with `int((float64(ccValue)/127.0)*100.0)`, which for
`ccValue ≤ 127` equals the truncating `ccValue*100/127` (the exact value
`100v/127` is at least `1/127` away from any other integer, far beyond
float64 error), and finally performs the matched rules' actions. -/
def onControlChange (deviceType : MidiDeviceType) (hasConfigManager : Bool)
    (rules : List Rule) (env : PAEnv) (channel controller ccValue : Nat)
    (config : Config) : Config × List PAEvent :=
  let matched := rules.filter (fun rule =>
    rule.midiMessage.type = MidiMessageType.ControlChange ∧
    rule.midiMessage.channel = channel ∧
    rule.midiMessage.controller = controller)
  let config' :=
    if hasConfigManager ∧ deviceType = .KorgNanoKontrol2 then
      let value : Int := ((ccValue * 100) / 127 : Nat)
      if controller ≤ 7 then
        (UpdateControlValue "slider" ("slider" ++ Nat.repr (controller + 1))
          value config).config
      else if 16 ≤ controller ∧ controller ≤ 23 then
        (UpdateControlValue "knob" ("knob" ++ Nat.repr (controller - 16 + 1))
          value config).config
      else config
    else config
  (config', matched.flatMap (fun rule => doActions env rule ccValue))


/-- An idle audio-server state. -/
def envEmpty : PAEnv :=
  { outputs := [], inputs := [], playbackStreams := [], recordStreams := [],
    defaultSink := none, defaultSource := none }

/-- C3 counterexample: the claim says the dispatcher stores
`round(value/127*100)`, but the Go code truncates.  For the CC event
`(channel 0, controller 0, value 1)` the store receives 0, while
rounding `1/127*100 = 0.787...` to the nearest integer gives 1. -/
theorem C3_round_counterexample :
    controlValue "slider" "slider1"
      ((onControlChange .KorgNanoKontrol2 true [] envEmpty 0 0 1
        cfgOneSlider).1) = some 0 ∧
    ((1 * 100 + 127 / 2) / 127 : Nat) = 1 ∧
    some (0 : Int) ≠ some (1 : Int) :=
  ⟨by decide, by decide, by decide⟩

/-- C3 (amended): for every Control-Change event whose controller lies in
the slider range 0..7 or the knob range 16..23, the dispatcher always
performs the store update with `percent = ⌊value*100/127⌋` (float
division truncated to int, not rounded), independently of the rule list
and of whether any rule matches. -/
theorem C3_value_tracking (rules : List Rule) (env : PAEnv)
    (channel controller ccValue : Nat) (config : Config)
    (hv : ccValue ≤ 127) :
    (controller ≤ 7 →
      (onControlChange .KorgNanoKontrol2 true rules env channel controller
          ccValue config).1 =
        (UpdateControlValue "slider" ("slider" ++ Nat.repr (controller + 1))
          ((ccValue * 100) / 127 : Nat) config).config) ∧
    (16 ≤ controller → controller ≤ 23 →
      (onControlChange .KorgNanoKontrol2 true rules env channel controller
          ccValue config).1 =
        (UpdateControlValue "knob" ("knob" ++ Nat.repr (controller - 16 + 1))
          ((ccValue * 100) / 127 : Nat) config).config) := by
  constructor
  · intro h7
    simp [onControlChange, h7]
  · intro h16 h23
    have h7 : ¬ controller ≤ 7 := by omega
    simp [onControlChange, h7, h16, h23]

/-- C3 witness: the CC event `(channel 0, controller 2, value 127)` of
scenario B, dispatched with the compiled rules of `cfgMusic`, stores
`127*100/127 = 100` into `slider3`. -/
theorem C3_value_tracking_witness :
    (127 : Nat) ≤ 127 ∧
    (onControlChange .KorgNanoKontrol2 true
        (createRulesFromConfig cfgMusic midiDevFix) envEmpty 0 2 127
        cfgMusic).1 =
      (UpdateControlValue "slider" ("slider" ++ Nat.repr (2 + 1))
        ((127 * 100) / 127 : Nat) cfgMusic).config ∧
    controlValue "slider" "slider3"
      ((onControlChange .KorgNanoKontrol2 true
        (createRulesFromConfig cfgMusic midiDevFix) envEmpty 0 2 127
        cfgMusic).1) = some 100 :=
  ⟨by decide,
    (C3_value_tracking (createRulesFromConfig cfgMusic midiDevFix) envEmpty
      0 2 127 cfgMusic (by decide)).1 (by decide),
    by decide⟩


/-- One source of one binding in `triggerStartupVolumeActions`
(pulsekontrol.go:353-377): a legacy source for which `SmartMatchStreams`
reports a migration candidate is migrated through the store (and its
volume apply skipped, Go `continue`); every other source gets a volume
apply with `float32(value)/100.0`, i.e. `value/100`. -/
def startupProcessSource (env : PAEnv) (controlType controlID : String)
    (value : Int) (source : Source) (store : Config) :
    Config × List PAEvent :=
  let applyAction : List PAEvent :=
    ProcessVolumeAction env
      { type := .SetVolume,
        target := .typed
          { type := source.type, name := source.name,
            binaryName := source.binaryName } }
      value 100
  if source.binaryName = "" then
    let m := SmartMatchStreams env source.type source.name
    match m.2 with
    | some migrationStream =>
      if m.1.length > 0 then
        ((MigrateSourceBinaryName controlType controlID source.type
            source.name migrationStream.binaryName store).config, [])
      else (store, applyAction)
    | none => (store, applyAction)
  else (store, applyAction)

/-- The source loop of one startup binding, threading the store. -/
def startupSources (env : PAEnv) (controlType controlID : String)
    (value : Int) : List Source → Config → Config × List PAEvent
  | [], store => (store, [])
  | source :: rest, store =>
    let r := startupProcessSource env controlType controlID value source store
    let r2 := startupSources env controlType controlID value rest r.1
    (r2.1, r.2 ++ r2.2)

/-- The slider loop of the startup sweep: each visited key's binding is
read from the current store (Go map iteration reads values at visit
time); bindings with no sources are skipped. -/
def startupSliderEntries (env : PAEnv) :
    List String → Config → Config × List PAEvent
  | [], store => (store, [])
  | controlID :: rest, store =>
    match mapGet store.controls.sliders controlID with
    | some slider =>
      if slider.sources.length > 0 then
        let r := startupSources env "slider" controlID slider.value
          slider.sources store
        let r2 := startupSliderEntries env rest r.1
        (r2.1, r.2 ++ r2.2)
      else startupSliderEntries env rest store
    | none => startupSliderEntries env rest store

/-- The knob loop of the startup sweep. -/
def startupKnobEntries (env : PAEnv) :
    List String → Config → Config × List PAEvent
  | [], store => (store, [])
  | controlID :: rest, store =>
    match mapGet store.controls.knobs controlID with
    | some knob =>
      if knob.sources.length > 0 then
        let r := startupSources env "knob" controlID knob.value
          knob.sources store
        let r2 := startupKnobEntries env rest r.1
        (r2.1, r.2 ++ r2.2)
      else startupKnobEntries env rest store
    | none => startupKnobEntries env rest store

/-- `pulsekontrol.go` `triggerStartupVolumeActions`: all sliders, then all
knobs, in the map iteration order. -/
def triggerStartupVolumeActions (env : PAEnv) (store : Config) :
    Config × List PAEvent :=
  let rS := startupSliderEntries env
    (store.controls.sliders.map (fun p => p.1)) store
  let rK := startupKnobEntries env
    (rS.1.controls.knobs.map (fun p => p.1)) rS.1
  (rK.1, rS.2 ++ rK.2)

/-- The stored legacy reference of scenario C. -/
def chromiumLegacy : Source :=
  { type := .PlaybackStream, name := "Chromium", binaryName := "" }

/-- The disambiguated reference scenario C expects after migration. -/
def chromiumMigrated : Source :=
  { type := .PlaybackStream, name := "Chromium", binaryName := "chromium" }

/-- Store with the legacy Chromium ref on `slider1`. -/
def cfgLegacy : Config :=
  { device := devFix,
    controls :=
      { sliders :=
          [("slider1",
            { path := "Group1/Slider", value := 40,
              sources := [chromiumLegacy] })],
        knobs := [] } }

/-- Live state with one playback stream named Chromium carrying the
disambiguator `chromium`. -/
def envChromium : PAEnv :=
  { outputs := [], inputs := [],
    playbackStreams :=
      [{ name := "Chromium", fullName := "sr-chromium:42",
         binaryName := "chromium" }],
    recordStreams := [], defaultSink := none, defaultSource := none }

/-- C2: the startup sweep performs the migration exactly as the claim
describes, but a hardware-event volume apply does NOT: after a full CC
dispatch against the legacy ref the stored binding still holds only
`{PlaybackStream, "Chromium", ""}` — `ProcessVolumeAction` only emits the
`Config migration needed` log (the `TODO` at paclient.go:399). -/
theorem C2_migration_startup_sweep_only :
    controlBinding "slider" "slider1"
        (triggerStartupVolumeActions envChromium cfgLegacy).1 =
      some { path := "Group1/Slider", value := 40,
             sources := [chromiumMigrated] } ∧
    (∃ b, controlBinding "slider" "slider1"
        (onControlChange .KorgNanoKontrol2 true
          (createRulesFromConfig cfgLegacy midiDevFix) envChromium
          0 0 64 cfgLegacy).1 = some b ∧
      b.sources = [chromiumLegacy]) ∧
    PAEvent.migrationNeededLog "Chromium" "chromium" ∈
      (onControlChange .KorgNanoKontrol2 true
        (createRulesFromConfig cfgLegacy midiDevFix) envChromium
        0 0 64 cfgLegacy).2 :=
  ⟨by decide,
    ⟨{ path := "Group1/Slider", value := 50, sources := [chromiumLegacy] },
      by decide, by decide⟩,
    by decide⟩

/-- Steps of the signal-handling goroutine. -/
inductive ShutdownStep
  | logReceivedSignal
  | exitProcess
  | saveNow
deriving DecidableEq

/-- `pulsekontrol.go` `setupSignalHandling` (207-217): on SIGINT/SIGTERM
the goroutine logs "Received signal ..., shutting down" and calls
`os.Exit(0)`; the comment `// TODO: Add cleanup logic here` marks where a
flush would go — no `SaveNow` (or any other persistence call) happens. -/
def signalHandlerSteps : List ShutdownStep :=
  [.logReceivedSignal, .exitProcess]

/-- C6: the shutdown path contains no synchronous persistence flush — the
claimed `SaveNow`-before-exit step is absent from the signal handler. -/
theorem C6_no_flush_before_exit :
    ShutdownStep.saveNow ∉ signalHandlerSteps ∧
    ShutdownStep.exitProcess ∈ signalHandlerSteps := by
  decide

end PulseKontrol
